import Mathlib

set_option linter.unusedVariables false

/-!  Verification of the RCCG centre dashboard client: a shallow embedding of
the transport core (`src/Services/apiClient.js`) and of the attendance and
events resource gateways (`src/Services/attendanceAPI.js`,
`src/Services/eventsAPI.js`).  Network responses are oracle-supplied
parameters; side effects (refresh calls, file downloads, logout broadcasts,
settled requests) are recorded in explicit state or in counters returned
alongside the Result Envelope. -/

/-- JS truthiness of a possibly absent string (null, undefined and the empty
string are falsy). -/
def strTruthy : Option String → Bool
  | none => false
  | some s => s ≠ ""

/-- JS truthiness of a possibly absent number (undefined and 0 are falsy). -/
def natTruthy : Option Nat → Bool
  | none => false
  | some n => n ≠ 0

/-- JS `a || b` for an optional string `a` with fallback `b`. -/
def jsOrS (a : Option String) (b : String) : String :=
  match a with
  | some s => if s ≠ "" then s else b
  | none => b

/-- JS `a || b` on two strings. -/
def jsOr2 (a b : String) : String := if a ≠ "" then a else b

/-- Untyped JSON-ish values for payloads that the gateways pass through. -/
inductive JsonVal where
  | null
  | str (s : String)
  | num (n : Int)
  | boolean (b : Bool)
  | arr (xs : List JsonVal)
  | obj (fields : List (String × JsonVal))

/-- Null-coalescing embedding of an optional JSON value (an undefined field
of a composed payload shows up as null). -/
def optJson : Option JsonVal → JsonVal
  | some v => v
  | none => JsonVal.null

/-- First field named `k` of a JSON object, none otherwise. -/
def jsonField (v : JsonVal) (k : String) : Option JsonVal :=
  match v with
  | JsonVal.obj fields => fields.findSome? (fun p => if p.1 = k then some p.2 else none)
  | _ => none

/-- Body of an HTTP error response as the gateways read it
(`error.response.data`). -/
structure ErrRespData where
  message : Option String := none
  errors : Option (List String) := none
deriving Repr, DecidableEq

/-- The `error.response` object of an axios error. -/
structure ErrResponse where
  status : Nat := 500
  data : Option ErrRespData := none
deriving Repr, DecidableEq

/-- JS errors observed by the gateways: axios rejections (with an optional
HTTP response; none models a network failure) and local `new Error(msg)`
throws from validation code. -/
inductive JsError where
  | axios (response : Option ErrResponse) (msg : String)
  | jsNew (msg : String)
deriving Repr, DecidableEq

/-- `error.response?.data`. -/
def JsError.respData : JsError → Option ErrRespData
  | .axios r _ => r.bind (fun x => x.data)
  | .jsNew _ => none

/-- `error.response?.data?.message`. -/
def JsError.respMsg (e : JsError) : Option String := e.respData.bind (fun x => x.message)

/-- `error.message`. -/
def JsError.msg : JsError → String
  | .axios _ m => m
  | .jsNew m => m

/-- The two persisted credential entries in localStorage, under their fixed
keys `churchAdminToken` and `churchAdminRefreshToken`. -/
structure Storage where
  churchAdminToken : Option String := none
  churchAdminRefreshToken : Option String := none
deriving Repr, DecidableEq

/-- A successful axios response body as the gateways read it
(`response.data.data`, `.pagination`, `.message`, `.count`). -/
structure RespBody where
  data : Option JsonVal := none
  pagination : Option JsonVal := none
  message : Option String := none
  count : Option Nat := none

/-- Oracle result of one transport call through `apiClient`. -/
abbrev Net := Except JsError RespBody

/-- The uniform Result Envelope returned by every gateway operation, with a
data payload of the per-operation type `α`.  The `error` field carries
`error.response?.data` where a gateway copies it out. -/
structure Envelope (α : Type) where
  success : Bool
  data : Option α := none
  message : String
  errors : Option (List String) := none
  pagination : Option JsonVal := none
  count : Option Nat := none
  error : Option ErrRespData := none

/-- An outgoing request configuration; `rest` stands for url, method, params
and body, which the request interceptor never touches. -/
structure ReqConfig (ρ : Type) where
  authorization : Option String := none
  otherHeaders : List (String × String) := []
  metadata : Option Nat := none
  rest : ρ

namespace apiClient

/-- Request interceptor (apiClient.js lines 24-49): when the stored access
token is JS-truthy it is attached as `Bearer` followed by the token, and a
start timestamp is recorded in `config.metadata` for latency debugging. -/
def requestInterceptor {ρ : Type} (storage : Storage) (now : Nat) (config : ReqConfig ρ) :
    ReqConfig ρ :=
  let c :=
    match storage.churchAdminToken with
    | some t => if t ≠ "" then { config with authorization := some ("Bearer " ++ t) } else config
    | none => config
  { c with metadata := some now }

/-- Outcome recorded for a request settled by the 401 refresh protocol:
either it was resubmitted through `apiClient` with the given value placed in
its `Authorization` header (the result of the resubmission becoming the
result of the original call), or its promise was rejected with the given
error. -/
inductive ReqOutcome where
  | retriedWith (authHeader : String)
  | rejectedWith (e : JsError)
deriving Repr, DecidableEq

/-- Payload fields the refresh handler looks for in the refresh response. -/
structure RefreshPayload where
  accessToken : Option String := none
  token : Option String := none
deriving Repr, DecidableEq

/-- `refreshResponse.data`: an optional nested `data` object plus the
top-level fields. -/
structure RefreshBody where
  nested : Option RefreshPayload := none
  top : RefreshPayload := {}
deriving Repr, DecidableEq

/-- Result of the dedicated `axios.post(BASE_URL/auth/refresh)` call;
`ok none` models a falsy `refreshResponse.data`. -/
inductive RefreshNet where
  | ok (data : Option RefreshBody)
  | err (e : JsError)
deriving Repr, DecidableEq

/-- Token extraction from the refresh response (lines 166-172):
`responseData` is `data.data || data`, the candidate is
`responseData.accessToken || responseData.token`, and the result counts only
when it passes the `if (newAccessToken)` truthiness guard. -/
def extractNewToken : Option RefreshBody → Option String
  | none => none
  | some b =>
      let rd := b.nested.getD b.top
      let newTok := if strTruthy rd.accessToken then rd.accessToken else rd.token
      if strTruthy newTok then newTok else none

/-- Context captured by the initiating 401 handler while its refresh call is
in flight: the original request and the refresh token value it read. -/
structure RefreshCtx where
  origId : Nat
  refreshToken : String
deriving Repr, DecidableEq

/-- Interceptor-level client state: the module globals `isRefreshing` and
`failedQueue`, localStorage, the in-flight refresh context, and
instrumentation recording issued refresh calls, settled requests, dispatched
`auth:logout` events and the per-request `_retry` marks. -/
structure ClientState where
  isRefreshing : Bool := false
  failedQueue : List Nat := []
  storage : Storage := {}
  pending : Option RefreshCtx := none
  refreshCalls : Nat := 0
  settled : List (Nat × ReqOutcome) := []
  logoutEvents : Nat := 0
  retried : List Nat := []
deriving Repr, DecidableEq

/-- The catch block of the refresh path (lines 185-202): `processQueue`
rejects every queued request with the refresh error in enqueue order, both
stored tokens are removed, one `auth:logout` event is dispatched, the
triggering request is rejected with the same error, and the `finally` step
clears `isRefreshing`.  The `window.location` redirect is not modelled. -/
def refreshFailCleanup (i : Nat) (e : JsError) (s : ClientState) : ClientState :=
  { s with
    settled := s.settled ++ s.failedQueue.map (fun j => (j, ReqOutcome.rejectedWith e))
                        ++ [(i, ReqOutcome.rejectedWith e)],
    failedQueue := [],
    storage := { churchAdminToken := none, churchAdminRefreshToken := none },
    logoutEvents := s.logoutEvents + 1,
    pending := none,
    isRefreshing := false }

/-- The 401 branch of the response interceptor (lines 130-203) for a request
`i` whose `_retry` flag is unset, run synchronously up to its first
suspension point: if a refresh is already in flight the request pushes its
continuation onto `failedQueue`; otherwise it marks itself retried, sets
`isRefreshing`, reads the stored refresh token and either issues the single
refresh call (suspending on the await) or, when no truthy refresh token is
stored, falls into the catch block immediately. -/
def handle401 (i : Nat) (s : ClientState) : ClientState :=
  if s.isRefreshing then
    { s with failedQueue := s.failedQueue ++ [i] }
  else
    let s1 := { s with retried := s.retried ++ [i], isRefreshing := true }
    match s1.storage.churchAdminRefreshToken with
    | some rt =>
        if rt ≠ "" then
          { s1 with refreshCalls := s1.refreshCalls + 1, pending := some ⟨i, rt⟩ }
        else
          refreshFailCleanup i (JsError.jsNew "No refresh token available") s1
    | none => refreshFailCleanup i (JsError.jsNew "No refresh token available") s1

/-- Settlement of the in-flight refresh call (lines 153-202).  On success
with a truthy new token the access token is persisted, the refresh token
entry is rewritten with the captured value, `processQueue` resolves every
queued request (each then resubmits with the new bearer header), and the
original request is resubmitted likewise; on any failure, or when no truthy
token can be extracted, the catch block runs.  The `finally` step clears
`isRefreshing` in every case. -/
def settleRefresh (net : RefreshNet) (s : ClientState) : ClientState :=
  match s.pending with
  | none => s
  | some ctx =>
      match net with
      | .err e => refreshFailCleanup ctx.origId e s
      | .ok body =>
          match extractNewToken body with
          | some newTok =>
              { s with
                storage := { churchAdminToken := some newTok,
                             churchAdminRefreshToken := some ctx.refreshToken },
                settled := s.settled
                  ++ s.failedQueue.map (fun j => (j, ReqOutcome.retriedWith ("Bearer " ++ newTok)))
                  ++ [(ctx.origId, ReqOutcome.retriedWith ("Bearer " ++ newTok))],
                failedQueue := [],
                pending := none,
                isRefreshing := false }
          | none => refreshFailCleanup ctx.origId (JsError.jsNew "No refresh token available") s

/-- The one outcome every participant of a 401 burst receives, as a function
of how the shared refresh call settles. -/
def refreshOutcome : RefreshNet → ReqOutcome
  | .err e => ReqOutcome.rejectedWith e
  | .ok body =>
      match extractNewToken body with
      | some tok => ReqOutcome.retriedWith ("Bearer " ++ tok)
      | none => ReqOutcome.rejectedWith (JsError.jsNew "No refresh token available")

/-- A burst of fresh 401 failures followed by the settlement of the refresh
call they share: the single-threaded event loop runs each 401 handler to its
suspension point in arrival order, then the one refresh promise settles. -/
def run401Burst (ids : List Nat) (net : RefreshNet) (s : ClientState) : ClientState :=
  settleRefresh net (ids.foldl (fun s i => handle401 i s) s)

end apiClient

theorem foldl_handle401_inflight (t : List Nat) (s : apiClient.ClientState)
    (h : s.isRefreshing = true) :
    t.foldl (fun s i => apiClient.handle401 i s) s = { s with failedQueue := s.failedQueue ++ t } := by
  induction t generalizing s with
  | nil => simp
  | cons a t ih =>
      rw [List.foldl_cons]
      have h1 : apiClient.handle401 a s = { s with failedQueue := s.failedQueue ++ [a] } := by
        simp [apiClient.handle401, h]
      rw [h1, ih { s with failedQueue := s.failedQueue ++ [a] } h]
      simp

theorem burst_fold (i : Nat) (t : List Nat) (tok : Option String) (rt : String) (hrt : rt ≠ "") :
    (i :: t).foldl (fun s k => apiClient.handle401 k s)
      { storage := { churchAdminToken := tok, churchAdminRefreshToken := some rt } } =
    { storage := { churchAdminToken := tok, churchAdminRefreshToken := some rt },
      isRefreshing := true, failedQueue := t, pending := some ⟨i, rt⟩,
      refreshCalls := 1, settled := [], logoutEvents := 0, retried := [i] } := by
  rw [List.foldl_cons]
  have h1 : apiClient.handle401 i
      { storage := { churchAdminToken := tok, churchAdminRefreshToken := some rt } } =
      { storage := { churchAdminToken := tok, churchAdminRefreshToken := some rt },
        isRefreshing := true, failedQueue := [], pending := some ⟨i, rt⟩,
        refreshCalls := 1, settled := [], logoutEvents := 0, retried := [i] } := by
    simp [apiClient.handle401, hrt]
  rw [h1, foldl_handle401_inflight _ _ rfl]
  simp

theorem mem_outcome_list (i j : Nat) (t : List Nat) (o : apiClient.ReqOutcome)
    (hj : j ∈ i :: t) : (j, o) ∈ t.map (fun k => (k, o)) ++ [(i, o)] := by
  rcases List.mem_cons.mp hj with h | h
  · subst h
    simp
  · exact List.mem_append_left _ (List.mem_map.mpr ⟨j, h, rfl⟩)

theorem settleRefresh_drains (net : apiClient.RefreshNet) (s : apiClient.ClientState)
    (ctx : apiClient.RefreshCtx) (hp : s.pending = some ctx) :
    (apiClient.settleRefresh net s).refreshCalls = s.refreshCalls ∧
    (apiClient.settleRefresh net s).failedQueue = [] ∧
    (apiClient.settleRefresh net s).isRefreshing = false ∧
    (apiClient.settleRefresh net s).pending = none ∧
    (apiClient.settleRefresh net s).settled =
      s.settled ++ s.failedQueue.map (fun k => (k, apiClient.refreshOutcome net))
        ++ [(ctx.origId, apiClient.refreshOutcome net)] := by
  cases net with
  | err e =>
      simp [apiClient.settleRefresh, hp, apiClient.refreshFailCleanup, apiClient.refreshOutcome]
  | ok body =>
      cases hx : apiClient.extractNewToken body with
      | some nt =>
          simp [apiClient.settleRefresh, hp, hx, apiClient.refreshFailCleanup,
            apiClient.refreshOutcome]
      | none =>
          simp [apiClient.settleRefresh, hp, hx, apiClient.refreshFailCleanup,
            apiClient.refreshOutcome]

/-- C1: for every set of N at least 2 requests that each receive an HTTP 401
while none was previously retried and a truthy refresh token is stored,
exactly one token refresh call is issued in total, every one of the N
requests is settled (resubmitted with the refreshed bearer header, or
rejected with the refresh failure) with the one outcome of that single
refresh, and no request is left pending in the queue or as the in-flight
original. -/
theorem C1_single_flight (ids : List Nat) (h2 : 2 ≤ ids.length)
    (tok : Option String) (rt : String) (hrt : rt ≠ "") (net : apiClient.RefreshNet) :
    (apiClient.run401Burst ids net
      { storage := { churchAdminToken := tok, churchAdminRefreshToken := some rt } }).refreshCalls = 1 ∧
    (apiClient.run401Burst ids net
      { storage := { churchAdminToken := tok, churchAdminRefreshToken := some rt } }).failedQueue = [] ∧
    (apiClient.run401Burst ids net
      { storage := { churchAdminToken := tok, churchAdminRefreshToken := some rt } }).isRefreshing = false ∧
    (apiClient.run401Burst ids net
      { storage := { churchAdminToken := tok, churchAdminRefreshToken := some rt } }).pending = none ∧
    (apiClient.run401Burst ids net
      { storage := { churchAdminToken := tok, churchAdminRefreshToken := some rt } }).settled.length = ids.length ∧
    ∀ j ∈ ids, (j, apiClient.refreshOutcome net) ∈
      (apiClient.run401Burst ids net
        { storage := { churchAdminToken := tok, churchAdminRefreshToken := some rt } }).settled := by
  match ids, h2 with
  | i :: t, _ =>
    unfold apiClient.run401Burst
    rw [burst_fold i t tok rt hrt]
    obtain ⟨hc, hq, hr, hpend, hs⟩ :=
      settleRefresh_drains net
        { storage := { churchAdminToken := tok, churchAdminRefreshToken := some rt },
          isRefreshing := true, failedQueue := t, pending := some ⟨i, rt⟩,
          refreshCalls := 1, settled := [], logoutEvents := 0, retried := [i] } ⟨i, rt⟩ rfl
    refine ⟨hc, hq, hr, hpend, ?_, ?_⟩
    · rw [hs]
      simp
    · intro j hj
      rw [hs]
      simpa using mem_outcome_list i j t (apiClient.refreshOutcome net) hj

theorem C1_single_flight_witness :
    (2 ≤ [7, 8].length) ∧
    ((apiClient.run401Burst [7, 8]
        (apiClient.RefreshNet.ok (some { top := { accessToken := some "newTok" } }))
        { storage := { churchAdminToken := some "oldTok",
                       churchAdminRefreshToken := some "refTok" } }).refreshCalls = 1 ∧
      (apiClient.run401Burst [7, 8]
        (apiClient.RefreshNet.ok (some { top := { accessToken := some "newTok" } }))
        { storage := { churchAdminToken := some "oldTok",
                       churchAdminRefreshToken := some "refTok" } }).failedQueue = [] ∧
      (apiClient.run401Burst [7, 8]
        (apiClient.RefreshNet.ok (some { top := { accessToken := some "newTok" } }))
        { storage := { churchAdminToken := some "oldTok",
                       churchAdminRefreshToken := some "refTok" } }).isRefreshing = false ∧
      (apiClient.run401Burst [7, 8]
        (apiClient.RefreshNet.ok (some { top := { accessToken := some "newTok" } }))
        { storage := { churchAdminToken := some "oldTok",
                       churchAdminRefreshToken := some "refTok" } }).pending = none ∧
      (apiClient.run401Burst [7, 8]
        (apiClient.RefreshNet.ok (some { top := { accessToken := some "newTok" } }))
        { storage := { churchAdminToken := some "oldTok",
                       churchAdminRefreshToken := some "refTok" } }).settled.length = [7, 8].length ∧
      ∀ j ∈ [7, 8], (j, apiClient.refreshOutcome
          (apiClient.RefreshNet.ok (some { top := { accessToken := some "newTok" } }))) ∈
        (apiClient.run401Burst [7, 8]
          (apiClient.RefreshNet.ok (some { top := { accessToken := some "newTok" } }))
          { storage := { churchAdminToken := some "oldTok",
                         churchAdminRefreshToken := some "refTok" } }).settled) :=
  ⟨by decide,
   C1_single_flight [7, 8] (by decide) (some "oldTok") "refTok" (by decide)
     (apiClient.RefreshNet.ok (some { top := { accessToken := some "newTok" } }))⟩

/-- C2: the request interceptor attaches `Bearer` plus the exact stored
access token when one is present (JS-truthy) under the fixed key, attaches
no Authorization header when none is stored, and in both cases passes the
other request fields (url, method, params, body, other headers) through
unchanged while the request proceeds. -/
theorem C2_bearer_attachment {ρ : Type} (storage : Storage) (now : Nat) (config : ReqConfig ρ) :
    (∀ t : String, storage.churchAdminToken = some t → t ≠ "" →
      (apiClient.requestInterceptor storage now config).authorization = some ("Bearer " ++ t)) ∧
    (storage.churchAdminToken = none →
      (apiClient.requestInterceptor storage now config).authorization = config.authorization) ∧
    (apiClient.requestInterceptor storage now config).rest = config.rest ∧
    (apiClient.requestInterceptor storage now config).otherHeaders = config.otherHeaders := by
  refine ⟨?_, ?_, ?_, ?_⟩
  · intro t ht hne
    simp [apiClient.requestInterceptor, ht, hne]
  · intro hnone
    simp [apiClient.requestInterceptor, hnone]
  · unfold apiClient.requestInterceptor
    cases storage.churchAdminToken with
    | none => rfl
    | some t => by_cases ht : t = "" <;> simp [ht]
  · unfold apiClient.requestInterceptor
    cases storage.churchAdminToken with
    | none => rfl
    | some t => by_cases ht : t = "" <;> simp [ht]

theorem C2_bearer_attachment_witness :
    ({ churchAdminToken := some "tok123" : Storage }.churchAdminToken = some "tok123") ∧
    ("tok123" ≠ "") ∧
    (apiClient.requestInterceptor { churchAdminToken := some "tok123" } 5
        ({ rest := 0 } : ReqConfig Nat)).authorization = some ("Bearer " ++ "tok123") :=
  ⟨rfl, by decide,
   (C2_bearer_attachment { churchAdminToken := some "tok123" } 5 ({ rest := 0 } : ReqConfig Nat)).1
     "tok123" rfl (by decide)⟩

/-- C3: every failed token refresh attempt, whether the refresh call is
rejected, the refresh response carries no truthy token, or no truthy refresh
token is stored at all, removes both stored tokens, dispatches the
`auth:logout` broadcast exactly once, rejects every queued request with the
same refresh failure, and rejects the triggering request with it as well. -/
theorem C3_refresh_failure_cleanup :
    (∀ (s : apiClient.ClientState) (ctx : apiClient.RefreshCtx) (e : JsError),
      s.pending = some ctx →
      (apiClient.settleRefresh (.err e) s).storage.churchAdminToken = none ∧
      (apiClient.settleRefresh (.err e) s).storage.churchAdminRefreshToken = none ∧
      (apiClient.settleRefresh (.err e) s).logoutEvents = s.logoutEvents + 1 ∧
      (apiClient.settleRefresh (.err e) s).settled =
        s.settled ++ s.failedQueue.map (fun j => (j, apiClient.ReqOutcome.rejectedWith e))
          ++ [(ctx.origId, apiClient.ReqOutcome.rejectedWith e)] ∧
      (apiClient.settleRefresh (.err e) s).failedQueue = [] ∧
      (apiClient.settleRefresh (.err e) s).isRefreshing = false) ∧
    (∀ (s : apiClient.ClientState) (ctx : apiClient.RefreshCtx)
        (body : Option apiClient.RefreshBody),
      s.pending = some ctx → apiClient.extractNewToken body = none →
      (apiClient.settleRefresh (.ok body) s).storage.churchAdminToken = none ∧
      (apiClient.settleRefresh (.ok body) s).storage.churchAdminRefreshToken = none ∧
      (apiClient.settleRefresh (.ok body) s).logoutEvents = s.logoutEvents + 1 ∧
      (apiClient.settleRefresh (.ok body) s).settled =
        s.settled ++ s.failedQueue.map
            (fun j => (j, apiClient.ReqOutcome.rejectedWith (JsError.jsNew "No refresh token available")))
          ++ [(ctx.origId, apiClient.ReqOutcome.rejectedWith (JsError.jsNew "No refresh token available"))] ∧
      (apiClient.settleRefresh (.ok body) s).failedQueue = [] ∧
      (apiClient.settleRefresh (.ok body) s).isRefreshing = false) ∧
    (∀ (s : apiClient.ClientState) (i : Nat),
      s.isRefreshing = false → strTruthy s.storage.churchAdminRefreshToken = false →
      (apiClient.handle401 i s).storage.churchAdminToken = none ∧
      (apiClient.handle401 i s).storage.churchAdminRefreshToken = none ∧
      (apiClient.handle401 i s).logoutEvents = s.logoutEvents + 1 ∧
      (apiClient.handle401 i s).settled =
        s.settled ++ s.failedQueue.map
            (fun j => (j, apiClient.ReqOutcome.rejectedWith (JsError.jsNew "No refresh token available")))
          ++ [(i, apiClient.ReqOutcome.rejectedWith (JsError.jsNew "No refresh token available"))] ∧
      (apiClient.handle401 i s).failedQueue = [] ∧
      (apiClient.handle401 i s).isRefreshing = false ∧
      (apiClient.handle401 i s).refreshCalls = s.refreshCalls) := by
  refine ⟨?_, ?_, ?_⟩
  · intro s ctx e hp
    simp [apiClient.settleRefresh, hp, apiClient.refreshFailCleanup]
  · intro s ctx body hp hx
    simp [apiClient.settleRefresh, hp, hx, apiClient.refreshFailCleanup]
  · intro s i hr ht
    cases hrt : s.storage.churchAdminRefreshToken with
    | none => simp [apiClient.handle401, hr, hrt, apiClient.refreshFailCleanup]
    | some v =>
        have hv : v = "" := by
          by_contra hne
          rw [hrt] at ht
          simp [strTruthy, hne] at ht
        subst hv
        simp [apiClient.handle401, hr, hrt, apiClient.refreshFailCleanup]

theorem C3_refresh_failure_cleanup_witness :
    (({ pending := some ⟨3, "ref"⟩, failedQueue := [4, 5],
        storage := { churchAdminToken := some "a", churchAdminRefreshToken := some "ref" } } :
        apiClient.ClientState).pending = some ⟨3, "ref"⟩) ∧
    ((apiClient.settleRefresh (.err (JsError.axios none "boom"))
        { pending := some ⟨3, "ref"⟩, failedQueue := [4, 5],
          storage := { churchAdminToken := some "a",
                       churchAdminRefreshToken := some "ref" } }).storage.churchAdminToken = none ∧
      (apiClient.settleRefresh (.err (JsError.axios none "boom"))
        { pending := some ⟨3, "ref"⟩, failedQueue := [4, 5],
          storage := { churchAdminToken := some "a",
                       churchAdminRefreshToken := some "ref" } }).storage.churchAdminRefreshToken = none ∧
      (apiClient.settleRefresh (.err (JsError.axios none "boom"))
        { pending := some ⟨3, "ref"⟩, failedQueue := [4, 5],
          storage := { churchAdminToken := some "a",
                       churchAdminRefreshToken := some "ref" } }).logoutEvents =
        ({ pending := some ⟨3, "ref"⟩, failedQueue := [4, 5],
           storage := { churchAdminToken := some "a",
                        churchAdminRefreshToken := some "ref" } } :
          apiClient.ClientState).logoutEvents + 1 ∧
      (apiClient.settleRefresh (.err (JsError.axios none "boom"))
        { pending := some ⟨3, "ref"⟩, failedQueue := [4, 5],
          storage := { churchAdminToken := some "a",
                       churchAdminRefreshToken := some "ref" } }).settled =
        ({ pending := some ⟨3, "ref"⟩, failedQueue := [4, 5],
           storage := { churchAdminToken := some "a",
                        churchAdminRefreshToken := some "ref" } } :
          apiClient.ClientState).settled ++
          ({ pending := some ⟨3, "ref"⟩, failedQueue := [4, 5],
             storage := { churchAdminToken := some "a",
                          churchAdminRefreshToken := some "ref" } } :
            apiClient.ClientState).failedQueue.map
            (fun j => (j, apiClient.ReqOutcome.rejectedWith (JsError.axios none "boom")))
          ++ [((3 : Nat), apiClient.ReqOutcome.rejectedWith (JsError.axios none "boom"))] ∧
      (apiClient.settleRefresh (.err (JsError.axios none "boom"))
        { pending := some ⟨3, "ref"⟩, failedQueue := [4, 5],
          storage := { churchAdminToken := some "a",
                       churchAdminRefreshToken := some "ref" } }).failedQueue = [] ∧
      (apiClient.settleRefresh (.err (JsError.axios none "boom"))
        { pending := some ⟨3, "ref"⟩, failedQueue := [4, 5],
          storage := { churchAdminToken := some "a",
                       churchAdminRefreshToken := some "ref" } }).isRefreshing = false) :=
  ⟨rfl,
   C3_refresh_failure_cleanup.1
     { pending := some ⟨3, "ref"⟩, failedQueue := [4, 5],
       storage := { churchAdminToken := some "a", churchAdminRefreshToken := some "ref" } }
     ⟨3, "ref"⟩ (JsError.axios none "boom") rfl⟩

/-- C4: when the refresh call succeeds with a truthy new access token in its
payload, the new access token is persisted while the stored refresh token is
rewritten with the same captured value (hence kept unchanged), every queued
request is resolved and resubmitted with the new bearer header, and the
original failed request is resubmitted with the new bearer header as well,
with no logout dispatched and no further refresh call issued. -/
theorem C4_refresh_success (s : apiClient.ClientState) (ctx : apiClient.RefreshCtx)
    (body : Option apiClient.RefreshBody) (newTok : String)
    (hp : s.pending = some ctx)
    (hrt : s.storage.churchAdminRefreshToken = some ctx.refreshToken)
    (hx : apiClient.extractNewToken body = some newTok) :
    (apiClient.settleRefresh (.ok body) s).storage.churchAdminToken = some newTok ∧
    (apiClient.settleRefresh (.ok body) s).storage.churchAdminRefreshToken =
      s.storage.churchAdminRefreshToken ∧
    (apiClient.settleRefresh (.ok body) s).settled =
      s.settled ++ s.failedQueue.map
          (fun j => (j, apiClient.ReqOutcome.retriedWith ("Bearer " ++ newTok)))
        ++ [(ctx.origId, apiClient.ReqOutcome.retriedWith ("Bearer " ++ newTok))] ∧
    (apiClient.settleRefresh (.ok body) s).failedQueue = [] ∧
    (apiClient.settleRefresh (.ok body) s).isRefreshing = false ∧
    (apiClient.settleRefresh (.ok body) s).logoutEvents = s.logoutEvents ∧
    (apiClient.settleRefresh (.ok body) s).refreshCalls = s.refreshCalls := by
  simp [apiClient.settleRefresh, hp, hx, hrt]

theorem C4_refresh_success_witness :
    (apiClient.extractNewToken (some { nested := some { token := some "fresh" } }) = some "fresh") ∧
    ((apiClient.settleRefresh (.ok (some { nested := some { token := some "fresh" } }))
        { pending := some ⟨1, "keepref"⟩, failedQueue := [2],
          storage := { churchAdminToken := some "stale",
                       churchAdminRefreshToken := some "keepref" } }).storage.churchAdminToken =
        some "fresh" ∧
      (apiClient.settleRefresh (.ok (some { nested := some { token := some "fresh" } }))
        { pending := some ⟨1, "keepref"⟩, failedQueue := [2],
          storage := { churchAdminToken := some "stale",
                       churchAdminRefreshToken := some "keepref" } }).storage.churchAdminRefreshToken =
        ({ pending := some ⟨1, "keepref"⟩, failedQueue := [2],
           storage := { churchAdminToken := some "stale",
                        churchAdminRefreshToken := some "keepref" } } :
          apiClient.ClientState).storage.churchAdminRefreshToken ∧
      (apiClient.settleRefresh (.ok (some { nested := some { token := some "fresh" } }))
        { pending := some ⟨1, "keepref"⟩, failedQueue := [2],
          storage := { churchAdminToken := some "stale",
                       churchAdminRefreshToken := some "keepref" } }).settled =
        ({ pending := some ⟨1, "keepref"⟩, failedQueue := [2],
           storage := { churchAdminToken := some "stale",
                        churchAdminRefreshToken := some "keepref" } } :
          apiClient.ClientState).settled ++
          ({ pending := some ⟨1, "keepref"⟩, failedQueue := [2],
             storage := { churchAdminToken := some "stale",
                          churchAdminRefreshToken := some "keepref" } } :
            apiClient.ClientState).failedQueue.map
            (fun j => (j, apiClient.ReqOutcome.retriedWith ("Bearer " ++ "fresh")))
          ++ [((1 : Nat), apiClient.ReqOutcome.retriedWith ("Bearer " ++ "fresh"))] ∧
      (apiClient.settleRefresh (.ok (some { nested := some { token := some "fresh" } }))
        { pending := some ⟨1, "keepref"⟩, failedQueue := [2],
          storage := { churchAdminToken := some "stale",
                       churchAdminRefreshToken := some "keepref" } }).failedQueue = [] ∧
      (apiClient.settleRefresh (.ok (some { nested := some { token := some "fresh" } }))
        { pending := some ⟨1, "keepref"⟩, failedQueue := [2],
          storage := { churchAdminToken := some "stale",
                       churchAdminRefreshToken := some "keepref" } }).isRefreshing = false ∧
      (apiClient.settleRefresh (.ok (some { nested := some { token := some "fresh" } }))
        { pending := some ⟨1, "keepref"⟩, failedQueue := [2],
          storage := { churchAdminToken := some "stale",
                       churchAdminRefreshToken := some "keepref" } }).logoutEvents =
        ({ pending := some ⟨1, "keepref"⟩, failedQueue := [2],
           storage := { churchAdminToken := some "stale",
                        churchAdminRefreshToken := some "keepref" } } :
          apiClient.ClientState).logoutEvents ∧
      (apiClient.settleRefresh (.ok (some { nested := some { token := some "fresh" } }))
        { pending := some ⟨1, "keepref"⟩, failedQueue := [2],
          storage := { churchAdminToken := some "stale",
                       churchAdminRefreshToken := some "keepref" } }).refreshCalls =
        ({ pending := some ⟨1, "keepref"⟩, failedQueue := [2],
           storage := { churchAdminToken := some "stale",
                        churchAdminRefreshToken := some "keepref" } } :
          apiClient.ClientState).refreshCalls) :=
  ⟨by decide,
   C4_refresh_success
     { pending := some ⟨1, "keepref"⟩, failedQueue := [2],
       storage := { churchAdminToken := some "stale", churchAdminRefreshToken := some "keepref" } }
     ⟨1, "keepref"⟩ (some { nested := some { token := some "fresh" } }) "fresh"
     rfl rfl (by decide)⟩

/-- `URLSearchParams.toString` on a built parameter list; percent encoding
is not modelled (the parameter values of interest are plain). -/
def queryToString (ps : List (String × String)) : String :=
  String.intercalate "&" (ps.map fun p => p.1 ++ "=" ++ p.2)

/-- JS `String.prototype.includes` as a substring test. -/
def jsIncludes (s sub : String) : Bool := (s.splitOn sub).length != 1

/-- JS truthiness of `x?.trim()` for an optional string. -/
def strTrimTruthy : Option String → Bool
  | none => false
  | some s => s.trim ≠ ""

/-- Data payload of an export or report envelope: either the download
descriptor (filename plus the literal type tag) produced by the csv branch,
or the JSON payload returned by the json branch. -/
inductive ReportData where
  | download (filename : String) (ty : String)
  | json (v : JsonVal)

/-- Aggregate payload reported by the bulk create operations. -/
structure BulkData where
  successful : Nat
  failed : Nat
  total : Nat
  results : List (Envelope JsonVal)

namespace attendanceAPI

/-- Filter object accepted by `getAttendanceRecords`. -/
structure AttFilters where
  page : Option Nat := none
  limit : Option Nat := none
  startDate : Option String := none
  endDate : Option String := none
  serviceType : Option String := none
  sortBy : Option String := none
  sortOrder : Option String := none
deriving Repr, DecidableEq

/-- Query parameters built by `getAttendanceRecords` (attendanceAPI.js lines
8-23): every truthy filter is appended in order, with the sentinel value
"all" suppressing the serviceType filter. -/
def attQueryParams (f : AttFilters) : List (String × String) :=
  (if natTruthy f.page then [("page", toString (f.page.getD 0))] else [])
  ++ (if natTruthy f.limit then [("limit", toString (f.limit.getD 0))] else [])
  ++ (if strTruthy f.startDate then [("startDate", f.startDate.getD "")] else [])
  ++ (if strTruthy f.endDate then [("endDate", f.endDate.getD "")] else [])
  ++ (if strTruthy f.serviceType && f.serviceType != some "all"
      then [("serviceType", f.serviceType.getD "")] else [])
  ++ (if strTruthy f.sortBy then [("sortBy", f.sortBy.getD "")] else [])
  ++ (if strTruthy f.sortOrder then [("sortOrder", f.sortOrder.getD "")] else [])

/-- Request url of the list call (line 25). -/
def attendanceUrl (f : AttFilters) : String :=
  "/attendance?" ++ queryToString (attQueryParams f)

/-- `getAttendanceRecords` (lines 6-41): on success the envelope passes
`data` and `pagination` through; the catch branch prefers the backend
message over the fixed fallback. -/
def getAttendanceRecords (f : AttFilters) (net : Net) : Envelope JsonVal :=
  match net with
  | .ok r =>
      { success := true, data := r.data, pagination := r.pagination,
        message := jsOrS r.message "Attendance records retrieved successfully" }
  | .error e =>
      { success := false,
        message := jsOrS e.respMsg "Failed to fetch attendance records",
        error := e.respData }

/-- Catch branch of `getAttendanceById` (lines 56-63). -/
def getAttendanceByIdCatch (e : JsError) : Envelope JsonVal :=
  { success := false,
    message := jsOrS e.respMsg "Failed to fetch attendance record",
    error := e.respData }

/-- `getAttendanceById` (lines 44-64): a falsy id throws locally into the
catch branch before any network call. -/
def getAttendanceById (id : Option String) (net : Net) : Envelope JsonVal :=
  if !(strTruthy id) then getAttendanceByIdCatch (JsError.jsNew "Attendance ID is required")
  else
    match net with
    | .ok r => { success := true, data := r.data,
                 message := jsOrS r.message "Attendance record retrieved successfully" }
    | .error e => getAttendanceByIdCatch e

/-- Input object for create and update attendance. -/
structure AttendanceInput where
  date : Option String := none
  serviceType : Option String := none
  totalAttendance : Option Int := none
  adults : Option Int := none
  youth : Option Int := none
  children : Option Int := none
  visitors : Option Int := none
  notes : Option String := none
  members : Option (List String) := none
deriving Repr, DecidableEq

/-- Catch branch of `createAttendance` (lines 97-104): backend message, then
the thrown error message, then the fixed fallback. -/
def createAttendanceCatch (e : JsError) : Envelope JsonVal :=
  { success := false,
    message := jsOrS e.respMsg (jsOr2 e.msg "Failed to record attendance"),
    errors := e.respData.bind (fun x => x.errors) }

/-- `createAttendance` (lines 67-105) paired with the number of network
calls it issues: the required-field validation throws locally (zero calls)
before the POST; the request payload construction is not modelled because
the response is oracle-supplied. -/
def createAttendance (d : AttendanceInput) (net : Net) : Envelope JsonVal × Nat :=
  if !(strTruthy d.date) then
    (createAttendanceCatch (JsError.jsNew "Date is required"), 0)
  else if !(strTruthy d.serviceType) then
    (createAttendanceCatch (JsError.jsNew "Service type is required"), 0)
  else
    match d.totalAttendance with
    | none =>
        (createAttendanceCatch (JsError.jsNew "Total attendance must be a non-negative number"), 0)
    | some n =>
        if n < 0 then
          (createAttendanceCatch (JsError.jsNew "Total attendance must be a non-negative number"), 0)
        else
          match net with
          | .ok r => ({ success := true, data := r.data,
                        message := jsOrS r.message "Attendance recorded successfully" }, 1)
          | .error e => (createAttendanceCatch e, 1)

/-- Catch branch of `updateAttendance` (lines 142-149). -/
def updateAttendanceCatch (e : JsError) : Envelope JsonVal :=
  { success := false,
    message := jsOrS e.respMsg (jsOr2 e.msg "Failed to update attendance"),
    errors := e.respData.bind (fun x => x.errors) }

/-- `updateAttendance` (lines 108-150): id check then the same validation as
create, then one PUT. -/
def updateAttendance (id : Option String) (d : AttendanceInput) (net : Net) : Envelope JsonVal :=
  if !(strTruthy id) then updateAttendanceCatch (JsError.jsNew "Attendance ID is required")
  else if !(strTruthy d.date) then updateAttendanceCatch (JsError.jsNew "Date is required")
  else if !(strTruthy d.serviceType) then
    updateAttendanceCatch (JsError.jsNew "Service type is required")
  else
    match d.totalAttendance with
    | none => updateAttendanceCatch (JsError.jsNew "Total attendance must be a non-negative number")
    | some n =>
        if n < 0 then
          updateAttendanceCatch (JsError.jsNew "Total attendance must be a non-negative number")
        else
          match net with
          | .ok r => { success := true, data := r.data,
                       message := jsOrS r.message "Attendance updated successfully" }
          | .error e => updateAttendanceCatch e

/-- Catch branch of `deleteAttendance` (lines 165-171). -/
def deleteAttendanceCatch (e : JsError) : Envelope JsonVal :=
  { success := false, message := jsOrS e.respMsg "Failed to delete attendance record" }

/-- `deleteAttendance` (lines 153-172). -/
def deleteAttendance (id : Option String) (net : Net) : Envelope JsonVal :=
  if !(strTruthy id) then deleteAttendanceCatch (JsError.jsNew "Attendance ID is required")
  else
    match net with
    | .ok r => { success := true, data := r.data,
                 message := jsOrS r.message "Attendance record deleted successfully" }
    | .error e => deleteAttendanceCatch e

/-- Fallback statistics object of the stats catch branch (lines 193-199). -/
def statsFallback : JsonVal :=
  JsonVal.obj [("totalRecords", JsonVal.num 0), ("totalAttendance", JsonVal.num 0),
               ("averageAttendance", JsonVal.num 0), ("highestAttendance", JsonVal.num 0),
               ("lowestAttendance", JsonVal.num 0)]

/-- Catch branch of `getAttendanceStats` (lines 188-201). -/
def getAttendanceStatsCatch (e : JsError) : Envelope JsonVal :=
  { success := false,
    message := jsOrS e.respMsg (jsOr2 e.msg "Failed to fetch attendance statistics"),
    data := some statsFallback }

/-- `getAttendanceStats` (lines 175-202): the period must be one of week,
month, year, otherwise the validation throw lands in the catch branch. -/
def getAttendanceStats (period : String) (net : Net) : Envelope JsonVal :=
  if !(["week", "month", "year"].contains period) then
    getAttendanceStatsCatch (JsError.jsNew "Period must be one of: week, month, year")
  else
    match net with
    | .ok r => { success := true, data := r.data,
                 message := jsOrS r.message "Attendance statistics retrieved successfully" }
    | .error e => getAttendanceStatsCatch e

/-- Fallback service type list of the catch branch (lines 219-229). -/
def serviceTypesFallback : JsonVal :=
  JsonVal.arr (["Sunday Fire Service", "Sunday School", "Sunday Main Service",
    "Tuesday Bible Study", "Wednesday Prayer", "Thursday Faith Clinic",
    "Friday Night Service", "Holy Ghost Service", "Special Program"].map JsonVal.str)

/-- `getServiceTypes` (lines 205-232). -/
def getServiceTypes (net : Net) : Envelope JsonVal :=
  match net with
  | .ok r => { success := true, data := r.data,
               message := jsOrS r.message "Service types retrieved successfully" }
  | .error e =>
      { success := false,
        message := jsOrS e.respMsg "Failed to fetch service types",
        data := some serviceTypesFallback }

/-- `getMembersForAttendance` (lines 235-251). -/
def getMembersForAttendance (net : Net) : Envelope JsonVal :=
  match net with
  | .ok r => { success := true, data := r.data,
               message := jsOrS r.message "Members retrieved successfully" }
  | .error e =>
      { success := false,
        message := jsOrS e.respMsg "Failed to fetch members",
        data := some (JsonVal.arr []) }

/-- Filter object accepted by `generateReport`. -/
structure ReportFilters where
  format : Option String := none
  startDate : Option String := none
  endDate : Option String := none
  serviceType : Option String := none
deriving Repr, DecidableEq

/-- `generateReport` (lines 254-305): `filters.format || _csv_` selects the
mode.  The csv branch posts for a blob, triggers the client-side download of
a date-stamped file and returns only the filename and type tag; the json
branch returns the record payload and count.  The second component counts
triggered file downloads; `today` is the date part of the current ISO
timestamp. -/
def generateReport (filters : ReportFilters) (today : String)
    (netCsv : Except JsError String) (netJson : Net) : Envelope ReportData × Nat :=
  let fmt := jsOrS filters.format "csv"
  if fmt = "csv" then
    match netCsv with
    | .ok _blob =>
        ({ success := true,
           data := some (ReportData.download ("attendance_report_" ++ today ++ ".csv") "download"),
           message := "CSV report downloaded successfully" }, 1)
    | .error e =>
        ({ success := false, message := jsOrS e.respMsg "Failed to generate report" }, 0)
  else
    match netJson with
    | .ok r =>
        ({ success := true, data := r.data.map ReportData.json, count := r.count,
           message := jsOrS r.message "Report generated successfully" }, 0)
    | .error e =>
        ({ success := false, message := jsOrS e.respMsg "Failed to generate report" }, 0)

/-- `bulkCreateAttendance` (lines 308-340): one `createAttendance` per
record via `Promise.allSettled` (each settles fulfilled with an envelope),
counting fulfilled-and-successful versus the rest; overall success exactly
when nothing failed. -/
def bulkCreateAttendance (records : List AttendanceInput) (net : Nat → Net) :
    Envelope BulkData :=
  if records.isEmpty then
    { success := false,
      message := jsOr2 "Attendance records array is required"
        "Failed to bulk create attendance records" }
  else
    let results := records.enum.map (fun p => (createAttendance p.2 (net p.1)).1)
    let successfulR := results.filter (fun r => r.success)
    let failedR := results.filter (fun r => !r.success)
    { success := failedR.length == 0,
      data := some { successful := successfulR.length, failed := failedR.length,
                     total := records.length, results := results },
      message := "Bulk create completed: " ++ toString successfulR.length ++ " successful, "
                 ++ toString failedR.length ++ " failed" }

/-- `searchAttendance` (lines 343-365): a falsy, empty or whitespace-only
term delegates to `getAttendanceRecords` unchanged; otherwise the term is
folded into the serviceType filter when it mentions the word service. -/
def searchAttendance (searchTerm : Option String) (filters : AttFilters) (net : Net) :
    Envelope JsonVal :=
  if !(strTruthy searchTerm) || ((searchTerm.getD "").trim.length == 0) then
    getAttendanceRecords filters net
  else
    let t := searchTerm.getD ""
    getAttendanceRecords
      { filters with
        serviceType := if jsIncludes t "service" then some t else filters.serviceType } net

/-- `getAttendanceSummary` (lines 368-399): stats first; on stats failure
the composite returns that envelope unchanged without the second call,
otherwise the ten most recent records are fetched and merged. -/
def getAttendanceSummary (period : String) (netStats : Net) (netRecords : Net) :
    Envelope JsonVal :=
  let stats := getAttendanceStats period netStats
  if !stats.success then stats
  else
    let recentRecords := getAttendanceRecords
      { limit := some 10, sortBy := some "date", sortOrder := some "DESC" } netRecords
    { success := true,
      data := some (JsonVal.obj
        [("stats", optJson stats.data),
         ("recentRecords",
          if recentRecords.success then optJson recentRecords.data else JsonVal.arr []),
         ("period", JsonVal.str period)]),
      message := "Attendance summary retrieved successfully" }

end attendanceAPI

namespace eventsAPI

/-- Filter object accepted by `getEvents`. -/
structure EventFilters where
  page : Option Nat := none
  limit : Option Nat := none
  search : Option String := none
  status : Option String := none
  category : Option String := none
  upcoming : Option String := none
  sortBy : Option String := none
  sortOrder : Option String := none
deriving Repr, DecidableEq

/-- Query parameters built by `getEvents` (eventsAPI.js lines 8-26): every
truthy filter is appended in order, with the sentinel value "all"
suppressing the status and category filters. -/
def eventsQueryParams (f : EventFilters) : List (String × String) :=
  (if natTruthy f.page then [("page", toString (f.page.getD 0))] else [])
  ++ (if natTruthy f.limit then [("limit", toString (f.limit.getD 0))] else [])
  ++ (if strTruthy f.search then [("search", f.search.getD "")] else [])
  ++ (if strTruthy f.status && f.status != some "all"
      then [("status", f.status.getD "")] else [])
  ++ (if strTruthy f.category && f.category != some "all"
      then [("category", f.category.getD "")] else [])
  ++ (if strTruthy f.upcoming then [("upcoming", f.upcoming.getD "")] else [])
  ++ (if strTruthy f.sortBy then [("sortBy", f.sortBy.getD "")] else [])
  ++ (if strTruthy f.sortOrder then [("sortOrder", f.sortOrder.getD "")] else [])

/-- Request url of the list call (line 28). -/
def eventsUrl (f : EventFilters) : String := "/events?" ++ queryToString (eventsQueryParams f)

/-- `getEvents` (lines 6-44). -/
def getEvents (f : EventFilters) (net : Net) : Envelope JsonVal :=
  match net with
  | .ok r =>
      { success := true, data := r.data, pagination := r.pagination,
        message := jsOrS r.message "Events retrieved successfully" }
  | .error e =>
      { success := false,
        message := jsOrS e.respMsg "Failed to fetch events",
        error := e.respData }

/-- Catch branch of `getEventById` (lines 59-66). -/
def getEventByIdCatch (e : JsError) : Envelope JsonVal :=
  { success := false, message := jsOrS e.respMsg "Failed to fetch event details",
    error := e.respData }

/-- `getEventById` (lines 47-67). -/
def getEventById (id : Option String) (net : Net) : Envelope JsonVal :=
  if !(strTruthy id) then getEventByIdCatch (JsError.jsNew "Event ID is required")
  else
    match net with
    | .ok r => { success := true, data := r.data,
                 message := jsOrS r.message "Event details retrieved successfully" }
    | .error e => getEventByIdCatch e

/-- Input object for create and update event; only the locally validated
fields are modelled, the remaining payload fields feed the request body
which is oracle-answered. -/
structure EventInput where
  title : Option String := none
  description : Option String := none
  date : Option String := none
  time : Option String := none
  location : Option String := none
  category : Option String := none
deriving Repr, DecidableEq

/-- Catch branch of `createEvent` (lines 115-122). -/
def createEventCatch (e : JsError) : Envelope JsonVal :=
  { success := false,
    message := jsOrS e.respMsg (jsOr2 e.msg "Failed to create event"),
    errors := e.respData.bind (fun x => x.errors) }

/-- `createEvent` (lines 70-123): required fields are validated locally in
source order before the POST. -/
def createEvent (d : EventInput) (net : Net) : Envelope JsonVal :=
  if !(strTrimTruthy d.title) then createEventCatch (JsError.jsNew "Event title is required")
  else if !(strTrimTruthy d.description) then
    createEventCatch (JsError.jsNew "Event description is required")
  else if !(strTruthy d.date) then createEventCatch (JsError.jsNew "Event date is required")
  else if !(strTruthy d.time) then createEventCatch (JsError.jsNew "Event time is required")
  else if !(strTrimTruthy d.location) then
    createEventCatch (JsError.jsNew "Event location is required")
  else if !(strTruthy d.category) then createEventCatch (JsError.jsNew "Event category is required")
  else
    match net with
    | .ok r => { success := true, data := r.data,
                 message := jsOrS r.message "Event created successfully" }
    | .error e => createEventCatch e

/-- Catch branch of `updateEvent` (lines 179-186). -/
def updateEventCatch (e : JsError) : Envelope JsonVal :=
  { success := false,
    message := jsOrS e.respMsg (jsOr2 e.msg "Failed to update event"),
    errors := e.respData.bind (fun x => x.errors) }

/-- `updateEvent` (lines 126-187): fields are validated only when present. -/
def updateEvent (id : Option String) (d : EventInput) (net : Net) : Envelope JsonVal :=
  if !(strTruthy id) then updateEventCatch (JsError.jsNew "Event ID is required")
  else if d.title.isSome && !(strTrimTruthy d.title) then
    updateEventCatch (JsError.jsNew "Event title cannot be empty")
  else if d.description.isSome && !(strTrimTruthy d.description) then
    updateEventCatch (JsError.jsNew "Event description cannot be empty")
  else if d.location.isSome && !(strTrimTruthy d.location) then
    updateEventCatch (JsError.jsNew "Event location cannot be empty")
  else
    match net with
    | .ok r => { success := true, data := r.data,
                 message := jsOrS r.message "Event updated successfully" }
    | .error e => updateEventCatch e

/-- Catch branch of `deleteEvent` (lines 202-208). -/
def deleteEventCatch (e : JsError) : Envelope JsonVal :=
  { success := false, message := jsOrS e.respMsg "Failed to delete event" }

/-- `deleteEvent` (lines 190-209). -/
def deleteEvent (id : Option String) (net : Net) : Envelope JsonVal :=
  if !(strTruthy id) then deleteEventCatch (JsError.jsNew "Event ID is required")
  else
    match net with
    | .ok r => { success := true, data := r.data,
                 message := jsOrS r.message "Event deleted successfully" }
    | .error e => deleteEventCatch e

/-- Fallback category list of the catch branch (lines 226-238). -/
def categoriesFallback : JsonVal :=
  JsonVal.arr (["Service", "Conference", "Seminar", "Workshop", "Outreach", "Fellowship",
    "Youth Event", "Children Event", "Prayer Meeting", "Special Program", "Other"].map
    JsonVal.str)

/-- `getEventCategories` (lines 212-241). -/
def getEventCategories (net : Net) : Envelope JsonVal :=
  match net with
  | .ok r => { success := true, data := r.data,
               message := jsOrS r.message "Categories retrieved successfully" }
  | .error e =>
      { success := false,
        message := jsOrS e.respMsg "Failed to fetch categories",
        data := some categoriesFallback }

/-- Fallback statistics object of the stats catch branch (lines 257-264). -/
def eventsStatsFallback : JsonVal :=
  JsonVal.obj [("totalEvents", JsonVal.num 0), ("upcomingEvents", JsonVal.num 0),
               ("completedEvents", JsonVal.num 0), ("thisMonthEvents", JsonVal.num 0),
               ("categoryStats", JsonVal.arr []), ("statusStats", JsonVal.arr [])]

/-- `getEventsStats` (lines 244-267). -/
def getEventsStats (net : Net) : Envelope JsonVal :=
  match net with
  | .ok r => { success := true, data := r.data,
               message := jsOrS r.message "Events statistics retrieved successfully" }
  | .error e =>
      { success := false,
        message := jsOrS e.respMsg "Failed to fetch events statistics",
        data := some eventsStatsFallback }

/-- Catch branch of `updateEventAttendance` (lines 288-294). -/
def updateEventAttendanceCatch (e : JsError) : Envelope JsonVal :=
  { success := false,
    message := jsOrS e.respMsg (jsOr2 e.msg "Failed to update event attendance") }

/-- `updateEventAttendance` (lines 270-295). -/
def updateEventAttendance (id : Option String) (attendanceCount : Int) (net : Net) :
    Envelope JsonVal :=
  if !(strTruthy id) then updateEventAttendanceCatch (JsError.jsNew "Event ID is required")
  else if attendanceCount < 0 then
    updateEventAttendanceCatch (JsError.jsNew "Attendance count cannot be negative")
  else
    match net with
    | .ok r => { success := true, data := r.data,
                 message := jsOrS r.message "Event attendance updated successfully" }
    | .error e => updateEventAttendanceCatch e

/-- `getUpcomingEvents` (lines 298-314). -/
def getUpcomingEvents (limit : Nat) (net : Net) : Envelope JsonVal :=
  match net with
  | .ok r => { success := true, data := r.data,
               message := jsOrS r.message "Upcoming events retrieved successfully" }
  | .error e =>
      { success := false,
        message := jsOrS e.respMsg "Failed to fetch upcoming events",
        data := some (JsonVal.arr []) }

/-- Filter object accepted by `exportEvents`. -/
structure ExportFilters where
  format : Option String := none
  status : Option String := none
  category : Option String := none
deriving Repr, DecidableEq

/-- `exportEvents` (lines 317-371): same two modes as `generateReport`,
with a GET and an events export filename. -/
def exportEvents (filters : ExportFilters) (today : String)
    (netCsv : Except JsError String) (netJson : Net) : Envelope ReportData × Nat :=
  let fmt := jsOrS filters.format "csv"
  if fmt = "csv" then
    match netCsv with
    | .ok _blob =>
        ({ success := true,
           data := some (ReportData.download ("events_export_" ++ today ++ ".csv") "download"),
           message := "CSV export downloaded successfully" }, 1)
    | .error e =>
        ({ success := false, message := jsOrS e.respMsg "Failed to export events" }, 0)
  else
    match netJson with
    | .ok r =>
        ({ success := true, data := r.data.map ReportData.json, count := r.count,
           message := jsOrS r.message "Events exported successfully" }, 0)
    | .error e =>
        ({ success := false, message := jsOrS e.respMsg "Failed to export events" }, 0)

/-- Catch branch of `duplicateEvent` (lines 386-392). -/
def duplicateEventCatch (e : JsError) : Envelope JsonVal :=
  { success := false, message := jsOrS e.respMsg "Failed to duplicate event" }

/-- `duplicateEvent` (lines 374-393). -/
def duplicateEvent (id : Option String) (net : Net) : Envelope JsonVal :=
  if !(strTruthy id) then duplicateEventCatch (JsError.jsNew "Event ID is required")
  else
    match net with
    | .ok r => { success := true, data := r.data,
                 message := jsOrS r.message "Event duplicated successfully" }
    | .error e => duplicateEventCatch e

/-- `bulkCreateEvents` (lines 396-428): same aggregation as the attendance
bulk create. -/
def bulkCreateEvents (events : List EventInput) (net : Nat → Net) : Envelope BulkData :=
  if events.isEmpty then
    { success := false,
      message := jsOr2 "Events data array is required" "Failed to bulk create events" }
  else
    let results := events.enum.map (fun p => createEvent p.2 (net p.1))
    let successfulR := results.filter (fun r => r.success)
    let failedR := results.filter (fun r => !r.success)
    { success := failedR.length == 0,
      data := some { successful := successfulR.length, failed := failedR.length,
                     total := events.length, results := results },
      message := "Bulk create completed: " ++ toString successfulR.length ++ " successful, "
                 ++ toString failedR.length ++ " failed" }

/-- `searchEvents` (lines 431-451): a falsy, empty or whitespace-only term
delegates to `getEvents` unchanged; otherwise the trimmed term is placed in
the search filter. -/
def searchEvents (searchTerm : Option String) (filters : EventFilters) (net : Net) :
    Envelope JsonVal :=
  if !(strTruthy searchTerm) || ((searchTerm.getD "").trim.length == 0) then
    getEvents filters net
  else
    getEvents { filters with search := some ((searchTerm.getD "").trim) } net

/-- `getEventsSummary` (lines 454-489): stats first; on stats failure the
composite returns that envelope unchanged without the other calls, otherwise
recent events (defaults overridden by the caller filters) and five upcoming
events are fetched and merged. -/
def getEventsSummary (filters : EventFilters) (netStats netRecent netUpcoming : Net) :
    Envelope JsonVal :=
  let stats := getEventsStats netStats
  if !stats.success then stats
  else
    let recentEvents := getEvents
      { filters with
        limit := filters.limit.orElse (fun _ => some 5),
        sortBy := filters.sortBy.orElse (fun _ => some "date"),
        sortOrder := filters.sortOrder.orElse (fun _ => some "DESC") } netRecent
    let upcomingEvents := getUpcomingEvents 5 netUpcoming
    { success := true,
      data := some (JsonVal.obj
        [("stats", optJson stats.data),
         ("recentEvents",
          if recentEvents.success then optJson recentEvents.data else JsonVal.arr []),
         ("upcomingEvents",
          if upcomingEvents.success then optJson upcomingEvents.data else JsonVal.arr [])]),
      message := "Events summary retrieved successfully" }

/-- `getEventsByCategory` (lines 492-512): category check then delegation to
`getEvents` with a fixed page size and date ordering. -/
def getEventsByCategory (category : Option String) (net : Net) : Envelope JsonVal :=
  if !(strTruthy category) then
    { success := false,
      message := jsOr2 "Category is required" "Failed to get events by category",
      data := some (JsonVal.arr []) }
  else
    getEvents { category := category, limit := some 50, sortBy := some "date",
                sortOrder := some "ASC" } net

/-- `getEventsByDateRange` (lines 515-536): validates both bounds then
delegates to `getEvents` with fixed filters (no date filter is sent). -/
def getEventsByDateRange (startDate endDate : Option String) (net : Net) : Envelope JsonVal :=
  if !(strTruthy startDate) || !(strTruthy endDate) then
    { success := false,
      message := jsOr2 "Start date and end date are required" "Failed to get events by date range",
      data := some (JsonVal.arr []) }
  else
    getEvents { limit := some 100, sortBy := some "date", sortOrder := some "ASC" } net

/-- `getTodaysEvents` (lines 539-569): fetches a page of events and keeps
those whose date field strictly equals `today`; when the fetched data is not
an array the `.filter` call throws into the catch branch. -/
def getTodaysEvents (today : String) (net : Net) : Envelope JsonVal :=
  let allEvents := getEvents { limit := some 50, sortBy := some "time", sortOrder := some "ASC" }
    net
  if !allEvents.success then allEvents
  else
    match allEvents.data with
    | some (JsonVal.arr xs) =>
        { success := true,
          data := some (JsonVal.arr (xs.filter (fun e =>
            match jsonField e "date" with
            | some (JsonVal.str d) => d == today
            | _ => false))),
          message := "Today\x27s events retrieved successfully" }
    | _ =>
        { success := false, message := "Failed to get today\x27s events",
          data := some (JsonVal.arr []) }

end eventsAPI


theorem jsOrS_ne (a : Option String) (b : String) (h : b ≠ "") : jsOrS a b ≠ "" := by
  unfold jsOrS
  cases a with
  | none => exact h
  | some s => by_cases hs : s = "" <;> simp [hs, h]

theorem jsOr2_ne (a b : String) (h : b ≠ "") : jsOr2 a b ≠ "" := by
  unfold jsOr2
  by_cases ha : a = "" <;> simp [ha, h]

theorem append_ne_empty (a b : String) (h : a ≠ "") : a ++ b ≠ "" := by
  intro hc
  apply h
  have hd := congrArg String.data hc
  simp only [String.data_append] at hd
  rcases List.append_eq_nil.mp (by simpa using hd) with ⟨h1, _⟩
  cases a
  simp_all

theorem msg_getAttendanceRecords (f : attendanceAPI.AttFilters) (net : Net) :
    (attendanceAPI.getAttendanceRecords f net).message ≠ "" := by
  unfold attendanceAPI.getAttendanceRecords
  cases net <;> (try dsimp only; apply jsOrS_ne; decide)

theorem msg_getAttendanceById (id : Option String) (net : Net) :
    (attendanceAPI.getAttendanceById id net).message ≠ "" := by
  unfold attendanceAPI.getAttendanceById attendanceAPI.getAttendanceByIdCatch
  repeat' split
  all_goals try dsimp only
  all_goals (apply jsOrS_ne; decide)

theorem msg_createAttendance (d : attendanceAPI.AttendanceInput) (net : Net) :
    (attendanceAPI.createAttendance d net).1.message ≠ "" := by
  unfold attendanceAPI.createAttendance attendanceAPI.createAttendanceCatch
  repeat' split
  all_goals try dsimp only
  all_goals (apply jsOrS_ne; first | decide | (apply jsOr2_ne; decide))

theorem msg_updateAttendance (id : Option String) (d : attendanceAPI.AttendanceInput)
    (net : Net) : (attendanceAPI.updateAttendance id d net).message ≠ "" := by
  unfold attendanceAPI.updateAttendance attendanceAPI.updateAttendanceCatch
  repeat' split
  all_goals try dsimp only
  all_goals (apply jsOrS_ne; first | decide | (apply jsOr2_ne; decide))

theorem msg_deleteAttendance (id : Option String) (net : Net) :
    (attendanceAPI.deleteAttendance id net).message ≠ "" := by
  unfold attendanceAPI.deleteAttendance attendanceAPI.deleteAttendanceCatch
  repeat' split
  all_goals try dsimp only
  all_goals (apply jsOrS_ne; decide)

theorem msg_getAttendanceStats (period : String) (net : Net) :
    (attendanceAPI.getAttendanceStats period net).message ≠ "" := by
  unfold attendanceAPI.getAttendanceStats attendanceAPI.getAttendanceStatsCatch
  repeat' split
  all_goals try dsimp only
  all_goals (apply jsOrS_ne; first | decide | (apply jsOr2_ne; decide))

theorem msg_getServiceTypes (net : Net) :
    (attendanceAPI.getServiceTypes net).message ≠ "" := by
  unfold attendanceAPI.getServiceTypes
  cases net <;> (try dsimp only; apply jsOrS_ne; decide)

theorem msg_getMembersForAttendance (net : Net) :
    (attendanceAPI.getMembersForAttendance net).message ≠ "" := by
  unfold attendanceAPI.getMembersForAttendance
  cases net <;> (try dsimp only; apply jsOrS_ne; decide)

theorem msg_generateReport (filters : attendanceAPI.ReportFilters) (today : String)
    (netCsv : Except JsError String) (netJson : Net) :
    (attendanceAPI.generateReport filters today netCsv netJson).1.message ≠ "" := by
  unfold attendanceAPI.generateReport
  try dsimp only
  repeat' split
  all_goals try dsimp only
  all_goals first
    | decide
    | (apply jsOrS_ne; decide)

theorem msg_bulkCreateAttendance (records : List attendanceAPI.AttendanceInput)
    (net : Nat → Net) : (attendanceAPI.bulkCreateAttendance records net).message ≠ "" := by
  unfold attendanceAPI.bulkCreateAttendance
  try dsimp only
  split
  · try dsimp only
    apply jsOr2_ne
    decide
  · try dsimp only
    repeat' apply append_ne_empty
    decide

theorem msg_searchAttendance (searchTerm : Option String) (filters : attendanceAPI.AttFilters)
    (net : Net) : (attendanceAPI.searchAttendance searchTerm filters net).message ≠ "" := by
  unfold attendanceAPI.searchAttendance
  try dsimp only
  split <;> exact msg_getAttendanceRecords _ _

theorem msg_getAttendanceSummary (period : String) (netStats netRecords : Net) :
    (attendanceAPI.getAttendanceSummary period netStats netRecords).message ≠ "" := by
  unfold attendanceAPI.getAttendanceSummary
  try dsimp only
  split
  · exact msg_getAttendanceStats _ _
  · dsimp only
    decide

theorem msg_getEvents (f : eventsAPI.EventFilters) (net : Net) :
    (eventsAPI.getEvents f net).message ≠ "" := by
  unfold eventsAPI.getEvents
  cases net <;> (try dsimp only; apply jsOrS_ne; decide)

theorem msg_getEventById (id : Option String) (net : Net) :
    (eventsAPI.getEventById id net).message ≠ "" := by
  unfold eventsAPI.getEventById eventsAPI.getEventByIdCatch
  repeat' split
  all_goals try dsimp only
  all_goals (apply jsOrS_ne; decide)

theorem msg_createEvent (d : eventsAPI.EventInput) (net : Net) :
    (eventsAPI.createEvent d net).message ≠ "" := by
  unfold eventsAPI.createEvent eventsAPI.createEventCatch
  repeat' split
  all_goals try dsimp only
  all_goals (apply jsOrS_ne; first | decide | (apply jsOr2_ne; decide))

theorem msg_updateEvent (id : Option String) (d : eventsAPI.EventInput) (net : Net) :
    (eventsAPI.updateEvent id d net).message ≠ "" := by
  unfold eventsAPI.updateEvent eventsAPI.updateEventCatch
  repeat' split
  all_goals try dsimp only
  all_goals (apply jsOrS_ne; first | decide | (apply jsOr2_ne; decide))

theorem msg_deleteEvent (id : Option String) (net : Net) :
    (eventsAPI.deleteEvent id net).message ≠ "" := by
  unfold eventsAPI.deleteEvent eventsAPI.deleteEventCatch
  repeat' split
  all_goals try dsimp only
  all_goals (apply jsOrS_ne; decide)

theorem msg_getEventCategories (net : Net) :
    (eventsAPI.getEventCategories net).message ≠ "" := by
  unfold eventsAPI.getEventCategories
  cases net <;> (try dsimp only; apply jsOrS_ne; decide)

theorem msg_getEventsStats (net : Net) :
    (eventsAPI.getEventsStats net).message ≠ "" := by
  unfold eventsAPI.getEventsStats
  cases net <;> (try dsimp only; apply jsOrS_ne; decide)

theorem msg_updateEventAttendance (id : Option String) (attendanceCount : Int) (net : Net) :
    (eventsAPI.updateEventAttendance id attendanceCount net).message ≠ "" := by
  unfold eventsAPI.updateEventAttendance eventsAPI.updateEventAttendanceCatch
  repeat' split
  all_goals try dsimp only
  all_goals (apply jsOrS_ne; first | decide | (apply jsOr2_ne; decide))

theorem msg_getUpcomingEvents (limit : Nat) (net : Net) :
    (eventsAPI.getUpcomingEvents limit net).message ≠ "" := by
  unfold eventsAPI.getUpcomingEvents
  cases net <;> (try dsimp only; apply jsOrS_ne; decide)

theorem msg_exportEvents (filters : eventsAPI.ExportFilters) (today : String)
    (netCsv : Except JsError String) (netJson : Net) :
    (eventsAPI.exportEvents filters today netCsv netJson).1.message ≠ "" := by
  unfold eventsAPI.exportEvents
  try dsimp only
  repeat' split
  all_goals try dsimp only
  all_goals first
    | decide
    | (apply jsOrS_ne; decide)

theorem msg_duplicateEvent (id : Option String) (net : Net) :
    (eventsAPI.duplicateEvent id net).message ≠ "" := by
  unfold eventsAPI.duplicateEvent eventsAPI.duplicateEventCatch
  repeat' split
  all_goals try dsimp only
  all_goals (apply jsOrS_ne; decide)

theorem msg_bulkCreateEvents (events : List eventsAPI.EventInput) (net : Nat → Net) :
    (eventsAPI.bulkCreateEvents events net).message ≠ "" := by
  unfold eventsAPI.bulkCreateEvents
  try dsimp only
  split
  · try dsimp only
    apply jsOr2_ne
    decide
  · try dsimp only
    repeat' apply append_ne_empty
    decide

theorem msg_searchEvents (searchTerm : Option String) (filters : eventsAPI.EventFilters)
    (net : Net) : (eventsAPI.searchEvents searchTerm filters net).message ≠ "" := by
  unfold eventsAPI.searchEvents
  try dsimp only
  split <;> exact msg_getEvents _ _

theorem msg_getEventsSummary (filters : eventsAPI.EventFilters)
    (netStats netRecent netUpcoming : Net) :
    (eventsAPI.getEventsSummary filters netStats netRecent netUpcoming).message ≠ "" := by
  unfold eventsAPI.getEventsSummary
  try dsimp only
  split
  · exact msg_getEventsStats _
  · dsimp only
    decide

theorem msg_getEventsByCategory (category : Option String) (net : Net) :
    (eventsAPI.getEventsByCategory category net).message ≠ "" := by
  unfold eventsAPI.getEventsByCategory
  split
  · try dsimp only
    apply jsOr2_ne
    decide
  · exact msg_getEvents _ _

theorem msg_getEventsByDateRange (startDate endDate : Option String) (net : Net) :
    (eventsAPI.getEventsByDateRange startDate endDate net).message ≠ "" := by
  unfold eventsAPI.getEventsByDateRange
  split
  · try dsimp only
    apply jsOr2_ne
    decide
  · exact msg_getEvents _ _

theorem msg_getTodaysEvents (today : String) (net : Net) :
    (eventsAPI.getTodaysEvents today net).message ≠ "" := by
  unfold eventsAPI.getTodaysEvents
  try dsimp only
  split
  · exact msg_getEvents _ _
  · split <;> (dsimp only; decide)

/-- C5: every gateway operation of attendanceAPI and eventsAPI returns a
Result Envelope (the embedded operations are total functions into the
envelope type, mirroring the catch-all structure by which no gateway call
throws past its own boundary), and whenever the returned envelope has
success equal to false its message field is a non-empty string. -/
theorem C5_envelope_invariant :
    (∀ (f : attendanceAPI.AttFilters) (net : Net),
      (attendanceAPI.getAttendanceRecords f net).success = false →
      (attendanceAPI.getAttendanceRecords f net).message ≠ "") ∧
    (∀ (id : Option String) (net : Net),
      (attendanceAPI.getAttendanceById id net).success = false →
      (attendanceAPI.getAttendanceById id net).message ≠ "") ∧
    (∀ (d : attendanceAPI.AttendanceInput) (net : Net),
      (attendanceAPI.createAttendance d net).1.success = false →
      (attendanceAPI.createAttendance d net).1.message ≠ "") ∧
    (∀ (id : Option String) (d : attendanceAPI.AttendanceInput) (net : Net),
      (attendanceAPI.updateAttendance id d net).success = false →
      (attendanceAPI.updateAttendance id d net).message ≠ "") ∧
    (∀ (id : Option String) (net : Net),
      (attendanceAPI.deleteAttendance id net).success = false →
      (attendanceAPI.deleteAttendance id net).message ≠ "") ∧
    (∀ (period : String) (net : Net),
      (attendanceAPI.getAttendanceStats period net).success = false →
      (attendanceAPI.getAttendanceStats period net).message ≠ "") ∧
    (∀ net : Net,
      (attendanceAPI.getServiceTypes net).success = false →
      (attendanceAPI.getServiceTypes net).message ≠ "") ∧
    (∀ net : Net,
      (attendanceAPI.getMembersForAttendance net).success = false →
      (attendanceAPI.getMembersForAttendance net).message ≠ "") ∧
    (∀ (filters : attendanceAPI.ReportFilters) (today : String)
        (netCsv : Except JsError String) (netJson : Net),
      (attendanceAPI.generateReport filters today netCsv netJson).1.success = false →
      (attendanceAPI.generateReport filters today netCsv netJson).1.message ≠ "") ∧
    (∀ (records : List attendanceAPI.AttendanceInput) (net : Nat → Net),
      (attendanceAPI.bulkCreateAttendance records net).success = false →
      (attendanceAPI.bulkCreateAttendance records net).message ≠ "") ∧
    (∀ (searchTerm : Option String) (filters : attendanceAPI.AttFilters) (net : Net),
      (attendanceAPI.searchAttendance searchTerm filters net).success = false →
      (attendanceAPI.searchAttendance searchTerm filters net).message ≠ "") ∧
    (∀ (period : String) (netStats netRecords : Net),
      (attendanceAPI.getAttendanceSummary period netStats netRecords).success = false →
      (attendanceAPI.getAttendanceSummary period netStats netRecords).message ≠ "") ∧
    (∀ (f : eventsAPI.EventFilters) (net : Net),
      (eventsAPI.getEvents f net).success = false →
      (eventsAPI.getEvents f net).message ≠ "") ∧
    (∀ (id : Option String) (net : Net),
      (eventsAPI.getEventById id net).success = false →
      (eventsAPI.getEventById id net).message ≠ "") ∧
    (∀ (d : eventsAPI.EventInput) (net : Net),
      (eventsAPI.createEvent d net).success = false →
      (eventsAPI.createEvent d net).message ≠ "") ∧
    (∀ (id : Option String) (d : eventsAPI.EventInput) (net : Net),
      (eventsAPI.updateEvent id d net).success = false →
      (eventsAPI.updateEvent id d net).message ≠ "") ∧
    (∀ (id : Option String) (net : Net),
      (eventsAPI.deleteEvent id net).success = false →
      (eventsAPI.deleteEvent id net).message ≠ "") ∧
    (∀ net : Net,
      (eventsAPI.getEventCategories net).success = false →
      (eventsAPI.getEventCategories net).message ≠ "") ∧
    (∀ net : Net,
      (eventsAPI.getEventsStats net).success = false →
      (eventsAPI.getEventsStats net).message ≠ "") ∧
    (∀ (id : Option String) (attendanceCount : Int) (net : Net),
      (eventsAPI.updateEventAttendance id attendanceCount net).success = false →
      (eventsAPI.updateEventAttendance id attendanceCount net).message ≠ "") ∧
    (∀ (limit : Nat) (net : Net),
      (eventsAPI.getUpcomingEvents limit net).success = false →
      (eventsAPI.getUpcomingEvents limit net).message ≠ "") ∧
    (∀ (filters : eventsAPI.ExportFilters) (today : String)
        (netCsv : Except JsError String) (netJson : Net),
      (eventsAPI.exportEvents filters today netCsv netJson).1.success = false →
      (eventsAPI.exportEvents filters today netCsv netJson).1.message ≠ "") ∧
    (∀ (id : Option String) (net : Net),
      (eventsAPI.duplicateEvent id net).success = false →
      (eventsAPI.duplicateEvent id net).message ≠ "") ∧
    (∀ (events : List eventsAPI.EventInput) (net : Nat → Net),
      (eventsAPI.bulkCreateEvents events net).success = false →
      (eventsAPI.bulkCreateEvents events net).message ≠ "") ∧
    (∀ (searchTerm : Option String) (filters : eventsAPI.EventFilters) (net : Net),
      (eventsAPI.searchEvents searchTerm filters net).success = false →
      (eventsAPI.searchEvents searchTerm filters net).message ≠ "") ∧
    (∀ (filters : eventsAPI.EventFilters) (netStats netRecent netUpcoming : Net),
      (eventsAPI.getEventsSummary filters netStats netRecent netUpcoming).success = false →
      (eventsAPI.getEventsSummary filters netStats netRecent netUpcoming).message ≠ "") ∧
    (∀ (category : Option String) (net : Net),
      (eventsAPI.getEventsByCategory category net).success = false →
      (eventsAPI.getEventsByCategory category net).message ≠ "") ∧
    (∀ (startDate endDate : Option String) (net : Net),
      (eventsAPI.getEventsByDateRange startDate endDate net).success = false →
      (eventsAPI.getEventsByDateRange startDate endDate net).message ≠ "") ∧
    (∀ (today : String) (net : Net),
      (eventsAPI.getTodaysEvents today net).success = false →
      (eventsAPI.getTodaysEvents today net).message ≠ "") :=
  ⟨fun f net _ => msg_getAttendanceRecords f net,
   fun id net _ => msg_getAttendanceById id net,
   fun d net _ => msg_createAttendance d net,
   fun id d net _ => msg_updateAttendance id d net,
   fun id net _ => msg_deleteAttendance id net,
   fun period net _ => msg_getAttendanceStats period net,
   fun net _ => msg_getServiceTypes net,
   fun net _ => msg_getMembersForAttendance net,
   fun filters today netCsv netJson _ => msg_generateReport filters today netCsv netJson,
   fun records net _ => msg_bulkCreateAttendance records net,
   fun searchTerm filters net _ => msg_searchAttendance searchTerm filters net,
   fun period netStats netRecords _ => msg_getAttendanceSummary period netStats netRecords,
   fun f net _ => msg_getEvents f net,
   fun id net _ => msg_getEventById id net,
   fun d net _ => msg_createEvent d net,
   fun id d net _ => msg_updateEvent id d net,
   fun id net _ => msg_deleteEvent id net,
   fun net _ => msg_getEventCategories net,
   fun net _ => msg_getEventsStats net,
   fun id c net _ => msg_updateEventAttendance id c net,
   fun limit net _ => msg_getUpcomingEvents limit net,
   fun filters today netCsv netJson _ => msg_exportEvents filters today netCsv netJson,
   fun id net _ => msg_duplicateEvent id net,
   fun events net _ => msg_bulkCreateEvents events net,
   fun searchTerm filters net _ => msg_searchEvents searchTerm filters net,
   fun filters ns nr nu _ => msg_getEventsSummary filters ns nr nu,
   fun category net _ => msg_getEventsByCategory category net,
   fun s e net _ => msg_getEventsByDateRange s e net,
   fun today net _ => msg_getTodaysEvents today net⟩

theorem C5_envelope_invariant_witness :
    ((attendanceAPI.getAttendanceRecords {}
        (Except.error (JsError.axios none "Network Error"))).success = false) ∧
    ((attendanceAPI.getAttendanceRecords {}
        (Except.error (JsError.axios none "Network Error"))).message ≠ "") :=
  ⟨rfl, C5_envelope_invariant.1 {} (Except.error (JsError.axios none "Network Error")) rfl⟩

theorem length_filter_add_not {α : Type} (l : List α) (p : α → Bool) :
    (l.filter p).length + (l.filter (fun a => !p a)).length = l.length := by
  induction l with
  | nil => rfl
  | cons a t ih =>
      by_cases h : p a = true
      · simp [List.filter_cons, h]
        omega
      · simp [List.filter_cons, h]
        omega

/-- Concrete bulk-create example: three valid records and two invalid ones
(one negative total, one missing date). -/
def exampleBulkRecords : List attendanceAPI.AttendanceInput :=
  [{ date := some "2024-01-07", serviceType := some "Sunday School", totalAttendance := some 120 },
   { date := some "2024-01-14", serviceType := some "Sunday School", totalAttendance := some 95 },
   { date := some "2024-01-21", serviceType := some "Sunday School", totalAttendance := some 130 },
   { date := some "2024-01-28", serviceType := some "Sunday School", totalAttendance := some (-1) },
   { date := none, serviceType := some "Sunday School", totalAttendance := some 50 }]

/-- C6: for every non-empty record array, bulkCreateAttendance issues one
logical create per record independently (the reported individual outcomes
are exactly the per-record createAttendance envelopes), reports successful
and failed counts whose sum is the total, the total equals the input
length, overall success holds exactly when zero creates failed, and the
concrete 3-valid-plus-2-invalid example reports successful 3, failed 2,
total 5 with success false. -/
theorem C6_bulk_create :
    (∀ (records : List attendanceAPI.AttendanceInput) (net : Nat → Net), records ≠ [] →
      ∃ d : BulkData,
        (attendanceAPI.bulkCreateAttendance records net).data = some d ∧
        d.results = records.enum.map
          (fun p => (attendanceAPI.createAttendance p.2 (net p.1)).1) ∧
        d.total = records.length ∧
        d.successful = (d.results.filter (fun r => r.success)).length ∧
        d.failed = (d.results.filter (fun r => !r.success)).length ∧
        d.successful + d.failed = d.total ∧
        ((attendanceAPI.bulkCreateAttendance records net).success = true ↔ d.failed = 0)) ∧
    ((attendanceAPI.bulkCreateAttendance exampleBulkRecords (fun _ => Except.ok {})).data.map
        (fun d => (d.successful, d.failed, d.total)) = some (3, 2, 5) ∧
      (attendanceAPI.bulkCreateAttendance exampleBulkRecords
        (fun _ => Except.ok {})).success = false) := by
  constructor
  · intro records net hne
    have hie : records.isEmpty = false := by
      cases records with
      | nil => exact absurd rfl hne
      | cons a t => rfl
    unfold attendanceAPI.bulkCreateAttendance
    rw [hie]
    refine ⟨_, rfl, rfl, rfl, rfl, rfl, ?_, ?_⟩
    · show (((records.enum.map
          (fun p => (attendanceAPI.createAttendance p.2 (net p.1)).1)).filter
            (fun r => r.success)).length +
          ((records.enum.map
            (fun p => (attendanceAPI.createAttendance p.2 (net p.1)).1)).filter
              (fun r => !r.success)).length = records.length)
      rw [length_filter_add_not]
      rw [List.length_map, List.enum_length]
    · show ((((records.enum.map
          (fun p => (attendanceAPI.createAttendance p.2 (net p.1)).1)).filter
            (fun r => !r.success)).length == 0) = true ↔ _)
      simp
  · constructor
    · decide
    · decide

theorem C6_bulk_create_witness :
    (exampleBulkRecords ≠ []) ∧
    (∃ d : BulkData,
      (attendanceAPI.bulkCreateAttendance exampleBulkRecords (fun _ => Except.ok {})).data =
        some d ∧
      d.results = exampleBulkRecords.enum.map
        (fun p => (attendanceAPI.createAttendance p.2 ((fun _ => Except.ok {}) p.1)).1) ∧
      d.total = exampleBulkRecords.length ∧
      d.successful = (d.results.filter (fun r => r.success)).length ∧
      d.failed = (d.results.filter (fun r => !r.success)).length ∧
      d.successful + d.failed = d.total ∧
      ((attendanceAPI.bulkCreateAttendance exampleBulkRecords
          (fun _ => Except.ok {})).success = true ↔ d.failed = 0)) :=
  ⟨by decide, C6_bulk_create.1 exampleBulkRecords (fun _ => Except.ok {}) (by decide)⟩

/-- Concrete invalid create input with a negative total. -/
def negTotalInput : attendanceAPI.AttendanceInput :=
  { date := some "2024-02-04", serviceType := some "Sunday Main Service",
    totalAttendance := some (-1) }

/-- C7: createAttendance fails locally, with success false, a descriptive
message and zero network calls, whenever the date is absent, the service
type is absent, or the total attendance is undefined or negative; the
negative case yields the non-negative-number message.  Validation runs in
source order before any request is issued. -/
theorem C7_create_validation (d : attendanceAPI.AttendanceInput) (net : Net) :
    (strTruthy d.date = false →
      (attendanceAPI.createAttendance d net).1.success = false ∧
      (attendanceAPI.createAttendance d net).1.message = "Date is required" ∧
      (attendanceAPI.createAttendance d net).2 = 0) ∧
    (strTruthy d.date = true → strTruthy d.serviceType = false →
      (attendanceAPI.createAttendance d net).1.success = false ∧
      (attendanceAPI.createAttendance d net).1.message = "Service type is required" ∧
      (attendanceAPI.createAttendance d net).2 = 0) ∧
    (strTruthy d.date = true → strTruthy d.serviceType = true → d.totalAttendance = none →
      (attendanceAPI.createAttendance d net).1.success = false ∧
      (attendanceAPI.createAttendance d net).1.message =
        "Total attendance must be a non-negative number" ∧
      (attendanceAPI.createAttendance d net).2 = 0) ∧
    (∀ n : Int, strTruthy d.date = true → strTruthy d.serviceType = true →
      d.totalAttendance = some n → n < 0 →
      (attendanceAPI.createAttendance d net).1.success = false ∧
      (attendanceAPI.createAttendance d net).1.message =
        "Total attendance must be a non-negative number" ∧
      (attendanceAPI.createAttendance d net).2 = 0) := by
  refine ⟨?_, ?_, ?_, ?_⟩
  · intro hdate
    simp [attendanceAPI.createAttendance, attendanceAPI.createAttendanceCatch, hdate,
      JsError.respMsg, JsError.respData, JsError.msg, jsOrS, jsOr2]
  · intro hdate hsvc
    simp [attendanceAPI.createAttendance, attendanceAPI.createAttendanceCatch, hdate, hsvc,
      JsError.respMsg, JsError.respData, JsError.msg, jsOrS, jsOr2]
  · intro hdate hsvc htot
    simp [attendanceAPI.createAttendance, attendanceAPI.createAttendanceCatch, hdate, hsvc, htot,
      JsError.respMsg, JsError.respData, JsError.msg, jsOrS, jsOr2]
  · intro n hdate hsvc htot hneg
    simp [attendanceAPI.createAttendance, attendanceAPI.createAttendanceCatch, hdate, hsvc, htot,
      hneg, JsError.respMsg, JsError.respData, JsError.msg, jsOrS, jsOr2]

theorem C7_create_validation_witness :
    (strTruthy negTotalInput.date = true) ∧
    (strTruthy negTotalInput.serviceType = true) ∧
    (negTotalInput.totalAttendance = some (-1)) ∧
    ((-1 : Int) < 0) ∧
    ((attendanceAPI.createAttendance negTotalInput (Except.ok {})).1.success = false ∧
      (attendanceAPI.createAttendance negTotalInput (Except.ok {})).1.message =
        "Total attendance must be a non-negative number" ∧
      (attendanceAPI.createAttendance negTotalInput (Except.ok {})).2 = 0) :=
  ⟨by decide, by decide, rfl, by decide,
   (C7_create_validation negTotalInput (Except.ok {})).2.2.2 (-1)
     (by decide) (by decide) rfl (by decide)⟩

theorem mem_ite_nil {α : Type} (a : α) (c : Bool) (l : List α) :
    (a ∈ (if c then l else [])) ↔ (c = true ∧ a ∈ l) := by
  cases c <;> simp

/-- C8: the list operations build their outgoing query from pagination,
range bounds, category or type filters with the sentinel value "all"
meaning no filter, free-text search and sort key plus direction; a key is
present in the outgoing query exactly when the corresponding filter field
is truthy (and differs from "all" for the sentinel-guarded keys), so absent
optional fields are omitted entirely; on success the envelope returns the
backend data together with the pagination descriptor; and the concrete call
getEvents with status all and category all produces a query with neither a
status nor a category parameter. -/
theorem C8_query_construction :
    (∀ f : eventsAPI.EventFilters,
      (("page" ∈ (eventsAPI.eventsQueryParams f).map Prod.fst) ↔ natTruthy f.page = true) ∧
      (("limit" ∈ (eventsAPI.eventsQueryParams f).map Prod.fst) ↔ natTruthy f.limit = true) ∧
      (("search" ∈ (eventsAPI.eventsQueryParams f).map Prod.fst) ↔ strTruthy f.search = true) ∧
      (("status" ∈ (eventsAPI.eventsQueryParams f).map Prod.fst) ↔
        (strTruthy f.status = true ∧ f.status ≠ some "all")) ∧
      (("category" ∈ (eventsAPI.eventsQueryParams f).map Prod.fst) ↔
        (strTruthy f.category = true ∧ f.category ≠ some "all")) ∧
      (("upcoming" ∈ (eventsAPI.eventsQueryParams f).map Prod.fst) ↔
        strTruthy f.upcoming = true) ∧
      (("sortBy" ∈ (eventsAPI.eventsQueryParams f).map Prod.fst) ↔ strTruthy f.sortBy = true) ∧
      (("sortOrder" ∈ (eventsAPI.eventsQueryParams f).map Prod.fst) ↔
        strTruthy f.sortOrder = true)) ∧
    (∀ f : attendanceAPI.AttFilters,
      (("page" ∈ (attendanceAPI.attQueryParams f).map Prod.fst) ↔ natTruthy f.page = true) ∧
      (("limit" ∈ (attendanceAPI.attQueryParams f).map Prod.fst) ↔ natTruthy f.limit = true) ∧
      (("startDate" ∈ (attendanceAPI.attQueryParams f).map Prod.fst) ↔
        strTruthy f.startDate = true) ∧
      (("endDate" ∈ (attendanceAPI.attQueryParams f).map Prod.fst) ↔
        strTruthy f.endDate = true) ∧
      (("serviceType" ∈ (attendanceAPI.attQueryParams f).map Prod.fst) ↔
        (strTruthy f.serviceType = true ∧ f.serviceType ≠ some "all")) ∧
      (("sortBy" ∈ (attendanceAPI.attQueryParams f).map Prod.fst) ↔
        strTruthy f.sortBy = true) ∧
      (("sortOrder" ∈ (attendanceAPI.attQueryParams f).map Prod.fst) ↔
        strTruthy f.sortOrder = true)) ∧
    (∀ (f : eventsAPI.EventFilters) (r : RespBody),
      (eventsAPI.getEvents f (Except.ok r)).success = true ∧
      (eventsAPI.getEvents f (Except.ok r)).data = r.data ∧
      (eventsAPI.getEvents f (Except.ok r)).pagination = r.pagination) ∧
    (∀ (f : attendanceAPI.AttFilters) (r : RespBody),
      (attendanceAPI.getAttendanceRecords f (Except.ok r)).success = true ∧
      (attendanceAPI.getAttendanceRecords f (Except.ok r)).data = r.data ∧
      (attendanceAPI.getAttendanceRecords f (Except.ok r)).pagination = r.pagination) ∧
    (eventsAPI.eventsQueryParams { status := some "all", category := some "all" } = [] ∧
      eventsAPI.eventsUrl { status := some "all", category := some "all" } = "/events?") := by
  refine ⟨?_, ?_, ?_, ?_, ?_, ?_⟩
  · intro f
    refine ⟨?_, ?_, ?_, ?_, ?_, ?_, ?_, ?_⟩ <;>
      simp [eventsAPI.eventsQueryParams, List.map_append, List.mem_append,
        apply_ite (List.map Prod.fst), mem_ite_nil]
  · intro f
    refine ⟨?_, ?_, ?_, ?_, ?_, ?_, ?_⟩ <;>
      simp [attendanceAPI.attQueryParams, List.map_append, List.mem_append,
        apply_ite (List.map Prod.fst), mem_ite_nil]
  · intro f r
    exact ⟨rfl, rfl, rfl⟩
  · intro f r
    exact ⟨rfl, rfl, rfl⟩
  · decide
  · decide

/-- C9: with format csv and a successful blob response, the export and
report operations trigger exactly one client-side download of the
date-stamped generated file and return a success envelope whose data is
only the download descriptor (filename plus the type tag download),
exposing no record data; with format json and a successful response they
return the record payload as data together with the count field and
trigger no download. -/
theorem C9_export_modes :
    (∀ (filters : attendanceAPI.ReportFilters) (today : String) (blob : String) (netJson : Net),
      filters.format = some "csv" →
      (attendanceAPI.generateReport filters today (Except.ok blob) netJson).1.success = true ∧
      (attendanceAPI.generateReport filters today (Except.ok blob) netJson).1.data =
        some (ReportData.download ("attendance_report_" ++ today ++ ".csv") "download") ∧
      (attendanceAPI.generateReport filters today (Except.ok blob) netJson).2 = 1) ∧
    (∀ (filters : attendanceAPI.ReportFilters) (today : String)
        (netCsv : Except JsError String) (r : RespBody),
      filters.format = some "json" →
      (attendanceAPI.generateReport filters today netCsv (Except.ok r)).1.success = true ∧
      (attendanceAPI.generateReport filters today netCsv (Except.ok r)).1.data =
        r.data.map ReportData.json ∧
      (attendanceAPI.generateReport filters today netCsv (Except.ok r)).1.count = r.count ∧
      (attendanceAPI.generateReport filters today netCsv (Except.ok r)).2 = 0) ∧
    (∀ (filters : eventsAPI.ExportFilters) (today : String) (blob : String) (netJson : Net),
      filters.format = some "csv" →
      (eventsAPI.exportEvents filters today (Except.ok blob) netJson).1.success = true ∧
      (eventsAPI.exportEvents filters today (Except.ok blob) netJson).1.data =
        some (ReportData.download ("events_export_" ++ today ++ ".csv") "download") ∧
      (eventsAPI.exportEvents filters today (Except.ok blob) netJson).2 = 1) ∧
    (∀ (filters : eventsAPI.ExportFilters) (today : String)
        (netCsv : Except JsError String) (r : RespBody),
      filters.format = some "json" →
      (eventsAPI.exportEvents filters today netCsv (Except.ok r)).1.success = true ∧
      (eventsAPI.exportEvents filters today netCsv (Except.ok r)).1.data =
        r.data.map ReportData.json ∧
      (eventsAPI.exportEvents filters today netCsv (Except.ok r)).1.count = r.count ∧
      (eventsAPI.exportEvents filters today netCsv (Except.ok r)).2 = 0) := by
  refine ⟨?_, ?_, ?_, ?_⟩
  · intro filters today blob netJson hf
    simp [attendanceAPI.generateReport, hf, jsOrS]
  · intro filters today netCsv r hf
    simp [attendanceAPI.generateReport, hf, jsOrS]
  · intro filters today blob netJson hf
    simp [eventsAPI.exportEvents, hf, jsOrS]
  · intro filters today netCsv r hf
    simp [eventsAPI.exportEvents, hf, jsOrS]

theorem C9_export_modes_witness :
    (({ format := some "csv" } : attendanceAPI.ReportFilters).format = some "csv") ∧
    ((attendanceAPI.generateReport { format := some "csv" } "2024-02-04"
        (Except.ok "csvbytes") (Except.ok {})).1.success = true ∧
      (attendanceAPI.generateReport { format := some "csv" } "2024-02-04"
        (Except.ok "csvbytes") (Except.ok {})).1.data =
        some (ReportData.download ("attendance_report_" ++ "2024-02-04" ++ ".csv") "download") ∧
      (attendanceAPI.generateReport { format := some "csv" } "2024-02-04"
        (Except.ok "csvbytes") (Except.ok {})).2 = 1) :=
  ⟨rfl,
   C9_export_modes.1 { format := some "csv" } "2024-02-04" "csvbytes" (Except.ok {}) rfl⟩

/-- C10: searching with an absent, empty or whitespace-only term returns
exactly the result of the plain list call on the same filters: searchEvents
delegates to getEvents and searchAttendance delegates to
getAttendanceRecords, with identical envelopes. -/
theorem C10_empty_search_delegation :
    (∀ (searchTerm : Option String) (filters : eventsAPI.EventFilters) (net : Net),
      (searchTerm = none ∨ ∃ s, searchTerm = some s ∧ s.trim = "") →
      eventsAPI.searchEvents searchTerm filters net = eventsAPI.getEvents filters net) ∧
    (∀ (searchTerm : Option String) (filters : attendanceAPI.AttFilters) (net : Net),
      (searchTerm = none ∨ ∃ s, searchTerm = some s ∧ s.trim = "") →
      attendanceAPI.searchAttendance searchTerm filters net =
        attendanceAPI.getAttendanceRecords filters net) := by
  constructor
  · intro searchTerm filters net h
    rcases h with h | ⟨s, hs, ht⟩
    · subst h
      simp [eventsAPI.searchEvents, strTruthy]
    · subst hs
      by_cases he : s = ""
      · subst he
        simp [eventsAPI.searchEvents, strTruthy]
      · simp [eventsAPI.searchEvents, strTruthy, he, ht]
  · intro searchTerm filters net h
    rcases h with h | ⟨s, hs, ht⟩
    · subst h
      simp [attendanceAPI.searchAttendance, strTruthy]
    · subst hs
      by_cases he : s = ""
      · subst he
        simp [attendanceAPI.searchAttendance, strTruthy]
      · simp [attendanceAPI.searchAttendance, strTruthy, he, ht]

theorem C10_empty_search_delegation_witness :
    ((none : Option String) = none ∨
      ∃ s, (none : Option String) = some s ∧ s.trim = "") ∧
    (eventsAPI.searchEvents none { category := some "Conference" } (Except.ok {}) =
      eventsAPI.getEvents { category := some "Conference" } (Except.ok {})) :=
  ⟨Or.inl rfl,
   C10_empty_search_delegation.1 none { category := some "Conference" }
     (Except.ok {}) (Or.inl rfl)⟩
